import Mathlib

/-!
Verification of the Solix2MQTT poll-cache-publish orchestration loop
(`src/app.ts`) and the `SolixE1600` helper class (`ref/e1600.ts`).

The external collaborators (cloud API client `api.ts`, MQTT publisher
`publish.ts`, file persistence `persistence.ts`, `utils.ts`) are not part of
the sources; their call outcomes are modelled as an explicit environment
(`Env`) of oracle results, and the orchestration code is embedded as pure
functions that thread the persisted-credential state and emit a trace of
observable events (external calls, publishes, log lines).
-/

namespace Solix

/-- Credential record returned by the cloud login endpoint
(`LoginResultResponse` in `api.ts`): the expiry is a Unix timestamp in
seconds (`token_expires_at`); the token itself is opaque. -/
structure LoginResultResponse where
  token_expires_at : Int
  auth_token : String
deriving DecidableEq, Repr

/-- `isLoginValid` from `src/app.ts` lines 11-13:
`new Date(loginData.token_expires_at * 1000).getTime() > now.getTime()`.
`now` is the current wall-clock instant in milliseconds. -/
def isLoginValid (loginData : LoginResultResponse) (now : Int) : Bool :=
  loginData.token_expires_at * 1000 > now

/-- The expiry instant of a credential in milliseconds, as the code
computes it: `new Date(token_expires_at * 1000).getTime()`. -/
def expiryInstantMs (loginData : LoginResultResponse) : Int :=
  loginData.token_expires_at * 1000

/-- Response of `api.login()`: result code, message, optional credential. -/
structure LoginResponse where
  code : Int
  msg : String
  data : Option LoginResultResponse
deriving DecidableEq, Repr

/-- A site entry of the site homepage (`site_list` element). -/
structure Site where
  site_id : String
  site_name : String
deriving DecidableEq, Repr

/-- The `data` field of the site-homepage response; the claims only use its
`site_list`, every other field is opaque to the orchestrator. -/
structure SiteHomepageData where
  site_list : List Site
deriving DecidableEq, Repr

/-- Site-homepage response envelope: its `data` field may be absent. -/
structure SiteHomepageResponse where
  data : Option SiteHomepageData
deriving DecidableEq, Repr

/-- Scenario-info response envelope; the payload is opaque and may be
absent (the code publishes `scenInfo.data` without checking). -/
structure ScenInfoResponse where
  data : Option String
deriving DecidableEq, Repr

/-- `param_data` wrapper of a device-param response. -/
structure ParamData where
  param_data : String
deriving DecidableEq, Repr

/-- `getSiteDeviceParam` response; the code reads `.data.param_data`. -/
structure SiteDeviceParamResponse where
  data : ParamData
deriving DecidableEq, Repr

/-- Modelled from the spec: `ParamType.LoadConfiguration` is declared in the
absent `api.ts`; the schedule retrieval in `ref/e1600.ts` (`getSchedule`)
uses param type "4" for the same schedule item, so its value is taken
to be "4". -/
def ParamType.LoadConfiguration : String := "4"

/-- A payload handed to `publisher.publish`, tagged by which collected item
it came from. `homepage none` and `scen none` are the JavaScript
`undefined` payloads. -/
inductive PubPayload where
  | homepage (d : Option SiteHomepageData)
  | scen (d : Option String)
  | sched (d : String)
deriving DecidableEq, Repr

/-- Observable events of one cycle, in program order: external calls
(recorded when the call is issued), publishes, log lines, and timed waits.
`sleepEv` records the exact (possibly negative) duration handed to
`sleep`. -/
inductive Event where
  | retrieveEv (result : Option LoginResultResponse)
  | loginEv
  | storeEv (cred : LoginResultResponse)
  | withLoginEv (cred : LoginResultResponse)
  | siteHomepageEv
  | scenInfoEv (siteId : String)
  | deviceParamEv (siteId : String) (paramType : String)
  | publishEv (topic : String) (payload : PubPayload)
  | logEv (msg : String)
  | errorEv (msg : String)
  | warnEv (msg : String)
  | sleepEv (ms : Int)
deriving DecidableEq, Repr

/-- Modelled from the spec: outcomes of the external collaborators (cloud
API client, MQTT publisher, persistence store), whose implementations
(`api.ts`, `publish.ts`, `persistence.ts`) are not among the sources.
Each field gives the result an `await` of that call would produce —
`.error e` means the call throws. `now` is the wall-clock instant (ms)
used for the expiry check. -/
structure Env where
  now : Int
  loginRes : Except String LoginResponse
  storeRes : Except String Unit
  withLoginRes : Except String Unit
  siteHomepageRes : Except String SiteHomepageResponse
  scenInfoRes : String → Except String (Option String)
  deviceParamRes : String → String → Except String SiteDeviceParamResponse
  publishRes : String → Except String Unit

/-- Sequencing helper: record the event of an external call; if the call
throws, the exception propagates (no handler inside `fetchAndPublish`),
otherwise continue with its result. -/
def callStep (ev : Event) (res : Except String α)
    (k : α → List Event × Except String Unit) : List Event × Except String Unit :=
  match res with
  | .error e => ([ev], .error e)
  | .ok a =>
      let r := k a
      (ev :: r.1, r.2)

/-- Body of the per-site `for` loop of `fetchAndPublish` (`src/app.ts`
lines 46-85): scenario info fetched and published, device schedule
(param type `LoadConfiguration`) fetched and published, then five further
`getSiteDeviceParam` calls (param types "3", "2", "1", "6", "6") whose
results are bound to unused variables and never published. -/
def processSite (env : Env) (pre : String) (site : Site) :
    List Event × Except String Unit :=
  callStep (.scenInfoEv site.site_id) (env.scenInfoRes site.site_id) fun scenData =>
  let t1 := pre ++ "/site/" ++ site.site_name ++ "/scenInfo"
  callStep (.publishEv t1 (.scen scenData)) (env.publishRes t1) fun _ =>
  callStep (.deviceParamEv site.site_id ParamType.LoadConfiguration)
      (env.deviceParamRes site.site_id ParamType.LoadConfiguration) fun deviceParams =>
  let t2 := pre ++ "/site/" ++ site.site_name ++ "/schedule"
  callStep (.publishEv t2 (.sched deviceParams.data.param_data)) (env.publishRes t2) fun _ =>
  callStep (.deviceParamEv site.site_id "3") (env.deviceParamRes site.site_id "3") fun _ =>
  callStep (.deviceParamEv site.site_id "2") (env.deviceParamRes site.site_id "2") fun _ =>
  callStep (.deviceParamEv site.site_id "1") (env.deviceParamRes site.site_id "1") fun _ =>
  callStep (.deviceParamEv site.site_id "6") (env.deviceParamRes site.site_id "6") fun _ =>
  callStep (.deviceParamEv site.site_id "6") (env.deviceParamRes site.site_id "6") fun _ =>
  ([], .ok ())

/-- The sequential `for` loop over `site_list`: an exception in one site's
body propagates and ends the loop (there is no per-site handler in the
code). -/
def processSites (env : Env) (pre : String) : List Site → List Event × Except String Unit
  | [] => ([], .ok ())
  | s :: rest =>
      match processSite env pre s with
      | (evs, .error e) => (evs, .error e)
      | (evs, .ok _) =>
          let r := processSites env pre rest
          (evs ++ r.1, r.2)

/-- Result of one cycle: the persisted cache after the cycle, the trace of
observable events, and whether the cycle completed or threw. -/
structure CycleOut where
  cache : Option LoginResultResponse
  trace : List Event
  result : Except String Unit
deriving Repr

/-- Logged-in part of `fetchAndPublish` (`src/app.ts` lines 41-89, the
`if (loginData)` branch): establish the session (`api.withLogin`), fetch
and publish the site homepage, iterate the site list (empty when `data`
is absent: `siteHomepage.data?.site_list ?? []`), then log "Published.".
Nothing in this code ever clears the persisted cache, so only the events
and the outcome are produced here. -/
def publishTail (env : Env) (pre : String) (cred : LoginResultResponse) :
    List Event × Except String Unit :=
  match env.withLoginRes with
  | .error e => ([.withLoginEv cred], .error e)
  | .ok _ =>
    match env.siteHomepageRes with
    | .error e => ([.withLoginEv cred, .siteHomepageEv], .error e)
    | .ok shp =>
      let t := pre ++ "/site_homepage"
      let head : List Event :=
        [.withLoginEv cred, .siteHomepageEv, .publishEv t (.homepage shp.data)]
      match env.publishRes t with
      | .error e => (head, .error e)
      | .ok _ =>
        let sites := match shp.data with
          | some d => d.site_list
          | none => []
        let r := processSites env pre sites
        match r.2 with
        | .error e => (head ++ r.1, .error e)
        | .ok _ => (head ++ r.1 ++ [.logEv "Published."], .ok ())

/-- Login branch of `fetchAndPublish` (`src/app.ts` lines 31-37), entered
when the cache is empty or expired: call `api.login()`; on a response
carrying a credential, `store` it and proceed logged in; on a response
without one, log the error and fall through to the "Not logged in"
branch (the cycle completes without throwing). Returns the cache after
the cycle together with the events and the outcome. -/
def loginTail (env : Env) (pre : String) (cache : Option LoginResultResponse) :
    Option LoginResultResponse × List Event × Except String Unit :=
  match env.loginRes with
  | .error e => (cache, [.loginEv], .error e)
  | .ok resp =>
    match resp.data with
    | none =>
        (cache,
         [.loginEv, .errorEv ("Could not log in: " ++ resp.msg),
          .errorEv "Not logged in"],
         .ok ())
    | some cred =>
      match env.storeRes with
      | .error e => (some cred, [.loginEv, .storeEv cred], .error e)
      | .ok _ =>
        let t := publishTail env pre cred
        (some cred, [.loginEv, .storeEv cred] ++ t.1, t.2)

/-- One fetch-and-publish cycle (`src/app.ts` lines 27-90): retrieve the
cached credential; if absent or expired, run the login branch, else use
the cached credential directly. -/
def fetchAndPublish (env : Env) (pre : String) (cache : Option LoginResultResponse) :
    CycleOut :=
  let evs : List Event := [.logEv "Fetching data", .retrieveEv cache]
  match cache with
  | none =>
      let r := loginTail env pre none
      ⟨r.1, evs ++ r.2.1, r.2.2⟩
  | some cred =>
      if isLoginValid cred env.now then
        let t := publishTail env pre cred
        ⟨some cred, evs ++ [.logEv "Using cached auth data"] ++ t.1, t.2⟩
      else
        let r := loginTail env pre (some cred)
        ⟨r.1, evs ++ r.2.1, r.2.2⟩

/-- The sleep computation of the scheduler loop (`src/app.ts` line 100):
`config.pollInterval * 1000 - end`, where `pollInterval` is in seconds
and `elapsed` is the cycle duration in milliseconds. There is no
clamping in the code. -/
def sleepIntervalOf (pollInterval : Int) (elapsed : Int) : Int :=
  pollInterval * 1000 - elapsed

/-- State after one scheduler-loop iteration: the cache left for the next
cycle and the events of the iteration. -/
structure LoopStep where
  cache : Option LoginResultResponse
  trace : List Event
deriving Repr

/-- One iteration of the scheduler loop (`src/app.ts` lines 92-103):
`try { await fetchAndPublish() } catch (e) { logger.warn(...) }`, then the
sleep-interval computation, the "Sleeping" log and `sleep(sleepInterval)`.
The result is `.error` exactly when an exception escapes the iteration and
crashes the process; the `try`/`catch` encloses the only fallible call, and
the wait itself never throws, so every branch below yields `.ok`. -/
def loopIter (env : Env) (pre : String) (pollInterval : Int) (elapsed : Int)
    (cache : Option LoginResultResponse) : Except String LoopStep :=
  let out := fetchAndPublish env pre cache
  let evs := match out.result with
    | .ok _ => out.trace
    | .error _ => out.trace ++ [.warnEv "Failed fetching or publishing printer data"]
  let si := sleepIntervalOf pollInterval elapsed
  .ok ⟨out.cache, evs ++ [.logEv "Sleeping", .sleepEv si]⟩

/-- Events of `SolixE1600.getSitehomepage` (`ref/e1600.ts`). -/
inductive E1600Event where
  | homepageCallEv
  | waitEv (ms : Nat)
deriving DecidableEq, Repr

/-- `SolixE1600.getSitehomepage` (`ref/e1600.ts` lines 143-157): call
`siteHomepage`; if the result is `undefined`, wait 1000ms and call once
more; if still `undefined`, throw; otherwise return the response's `data`
field. The two arguments are what the first and the second call would
return (`none` standing for `undefined`). -/
def getSitehomepage (first second : Option SiteHomepageResponse) :
    List E1600Event × Except String (Option SiteHomepageData) :=
  match first with
  | some s => ([.homepageCallEv], .ok s.data)
  | none =>
    match second with
    | some s => ([.homepageCallEv, .waitEv 1000, .homepageCallEv], .ok s.data)
    | none =>
        ([.homepageCallEv, .waitEv 1000, .homepageCallEv],
         .error "Unable to retrieve Sitehomepage")

/-! ### Trace observers -/

/-- Is this event the `api.login()` call? -/
def isLoginEv : Event → Bool
  | .loginEv => true
  | _ => false

/-- Number of `api.login()` calls in a trace. -/
def countLogin (tr : List Event) : Nat :=
  tr.countP isLoginEv

/-- The credentials passed to `persistence.store`, in order. -/
def storesOf (tr : List Event) : List LoginResultResponse :=
  tr.filterMap fun e =>
    match e with
    | .storeEv c => some c
    | _ => none

/-- The `(topic, payload)` pairs passed to `publisher.publish`, in order. -/
def publishesOf (tr : List Event) : List (String × PubPayload) :=
  tr.filterMap fun e =>
    match e with
    | .publishEv t p => some (t, p)
    | _ => none

/-- The topics published in a trace, in order. -/
def publishedTopics (tr : List Event) : List String :=
  (publishesOf tr).map Prod.fst

/-- The `(siteId, paramType)` arguments of the `getSiteDeviceParam` calls
in a trace, in order. -/
def deviceParamCallsOf (tr : List Event) : List (String × String) :=
  tr.filterMap fun e =>
    match e with
    | .deviceParamEv sid pt => some (sid, pt)
    | _ => none

/-- Did the cycle end in an exception? -/
def isErrorResult (o : CycleOut) : Bool :=
  match o.result with
  | .error _ => true
  | .ok _ => false

/-- The trace of one scheduler-loop iteration (empty in the impossible
crash case). -/
def loopTraceOf (env : Env) (pre : String) (pollInterval elapsed : Int)
    (cache : Option LoginResultResponse) : List Event :=
  match loopIter env pre pollInterval elapsed cache with
  | .ok st => st.trace
  | .error _ => []

/-! ### Concrete environments for witnesses and counterexamples -/

/-- An environment in which every external call succeeds, with one site
named "Home". -/
def okEnv : Env where
  now := 0
  loginRes := .ok ⟨0, "success", some ⟨10, "fresh-token"⟩⟩
  storeRes := .ok ()
  withLoginRes := .ok ()
  siteHomepageRes := .ok ⟨some ⟨[⟨"site-1", "Home"⟩]⟩⟩
  scenInfoRes := fun _ => .ok (some "scen-payload")
  deviceParamRes := fun _ _ => .ok ⟨⟨"schedule-payload"⟩⟩
  publishRes := fun _ => .ok ()

/-- A cached credential whose expiry (10s = 10000ms) is still in the
future at `okEnv.now = 0`. -/
def cachedCred : LoginResultResponse := ⟨10, "cached-token"⟩

/-- `okEnv`, except session establishment (`api.withLogin`) throws. -/
def badSessionEnv : Env := { okEnv with withLoginRes := .error "Login failed" }

/-- `okEnv` with two sites where the first site's scenario-info call
throws. -/
def scenFailEnv : Env :=
  { okEnv with
    siteHomepageRes := .ok ⟨some ⟨[⟨"s1", "A"⟩, ⟨"s2", "B"⟩]⟩⟩,
    scenInfoRes := fun sid =>
      if sid = "s1" then .error "scen-failure" else .ok (some "scen-payload") }

/-- `okEnv` whose homepage response succeeds but carries no `data` field. -/
def noDataEnv : Env := { okEnv with siteHomepageRes := .ok ⟨none⟩ }

/-! ### Trace lemmas -/

/-- A pointwise event property survives `callStep`. -/
theorem callStep_all (p : Event → Bool) {α : Type} (ev : Event)
    (res : Except String α) (k : α → List Event × Except String Unit)
    (h1 : p ev = true) (h2 : ∀ a, ((k a).1).all p = true) :
    ((callStep ev res k).1).all p = true := by
  cases res with
  | error e => simp [callStep, h1]
  | ok a => simpa [callStep, h1] using h2 a

/-- Every event of a per-site trace is a scenario-info call, a publish or a
device-param call. -/
theorem processSite_all (p : Event → Bool) (env : Env) (pre : String) (s : Site)
    (hscen : ∀ sid, p (.scenInfoEv sid) = true)
    (hpub : ∀ t pl, p (.publishEv t pl) = true)
    (hdev : ∀ sid pt, p (.deviceParamEv sid pt) = true) :
    ((processSite env pre s).1).all p = true := by
  unfold processSite
  refine callStep_all p _ _ _ (hscen _) fun a => ?_
  refine callStep_all p _ _ _ (hpub _ _) fun b => ?_
  refine callStep_all p _ _ _ (hdev _ _) fun c => ?_
  refine callStep_all p _ _ _ (hpub _ _) fun d => ?_
  refine callStep_all p _ _ _ (hdev _ _) fun e1 => ?_
  refine callStep_all p _ _ _ (hdev _ _) fun e2 => ?_
  refine callStep_all p _ _ _ (hdev _ _) fun e3 => ?_
  refine callStep_all p _ _ _ (hdev _ _) fun e4 => ?_
  refine callStep_all p _ _ _ (hdev _ _) fun e5 => ?_
  simp

/-- `processSite_all` lifted over the site loop. -/
theorem processSites_all (p : Event → Bool) (env : Env) (pre : String)
    (sites : List Site)
    (hscen : ∀ sid, p (.scenInfoEv sid) = true)
    (hpub : ∀ t pl, p (.publishEv t pl) = true)
    (hdev : ∀ sid pt, p (.deviceParamEv sid pt) = true) :
    ((processSites env pre sites).1).all p = true := by
  induction sites with
  | nil => simp [processSites]
  | cons s rest ih =>
      have hs := processSite_all p env pre s hscen hpub hdev
      unfold processSites
      rcases hps : processSite env pre s with ⟨evs, r⟩
      rw [hps] at hs
      cases r with
      | error e => simpa using hs
      | ok u => simp_all [List.all_append]

/-- Events of the logged-in phase satisfy `p` whenever `p` holds on every
constructor the phase can emit. -/
theorem publishTail_all (p : Event → Bool) (env : Env) (pre : String)
    (cred : LoginResultResponse)
    (hwl : ∀ c, p (.withLoginEv c) = true)
    (hsh : p .siteHomepageEv = true)
    (hpub : ∀ t pl, p (.publishEv t pl) = true)
    (hscen : ∀ sid, p (.scenInfoEv sid) = true)
    (hdev : ∀ sid pt, p (.deviceParamEv sid pt) = true)
    (hlog : ∀ m, p (.logEv m) = true) :
    ((publishTail env pre cred).1).all p = true := by
  unfold publishTail
  rcases hw : env.withLoginRes with e | u
  · simp [hwl]
  · simp only [hw]
    rcases hh : env.siteHomepageRes with e | shp
    · simp [hwl, hsh]
    · simp only [hh]
      rcases hp : env.publishRes (pre ++ "/site_homepage") with e | u2
      · simp [hwl, hsh, hpub]
      · simp only [hp]
        have hps := processSites_all p env pre
          (match shp.data with | some d => d.site_list | none => [])
          hscen hpub hdev
        rcases hr : processSites env pre
            (match shp.data with | some d => d.site_list | none => []) with ⟨evs, r⟩
        rw [hr] at hps
        simp only [hr]
        rcases r with e | u3
        · simp_all [List.all_append]
        · simp_all [List.all_append, hlog]

/-- Events of the login branch satisfy `p` whenever `p` holds on every
constructor it can emit. -/
theorem loginTail_all (p : Event → Bool) (env : Env) (pre : String)
    (cache : Option LoginResultResponse)
    (hlogin : p .loginEv = true)
    (hstore : ∀ c, p (.storeEv c) = true)
    (herr : ∀ m, p (.errorEv m) = true)
    (hwl : ∀ c, p (.withLoginEv c) = true)
    (hsh : p .siteHomepageEv = true)
    (hpub : ∀ t pl, p (.publishEv t pl) = true)
    (hscen : ∀ sid, p (.scenInfoEv sid) = true)
    (hdev : ∀ sid pt, p (.deviceParamEv sid pt) = true)
    (hlog : ∀ m, p (.logEv m) = true) :
    (((loginTail env pre cache).2.1)).all p = true := by
  unfold loginTail
  rcases hl : env.loginRes with e | resp
  · simp [hlogin]
  · simp only [hl]
    rcases hd : resp.data with _ | cred
    · simp [hd, hlogin, herr]
    · simp only [hd]
      rcases hs : env.storeRes with e | u
      · simp [hlogin, hstore]
      · simp only [hs]
        have ht := publishTail_all p env pre cred hwl hsh hpub hscen hdev hlog
        simp_all [List.all_append, hlogin, hstore]

/-- Events of a whole cycle satisfy `p` whenever `p` holds on every
constructor a cycle can emit (everything except `warnEv` and `sleepEv`,
which only the scheduler loop emits). -/
theorem fetchAndPublish_all (p : Event → Bool) (env : Env) (pre : String)
    (cache : Option LoginResultResponse)
    (hlog : ∀ m, p (.logEv m) = true)
    (hretr : ∀ r, p (.retrieveEv r) = true)
    (hlogin : p .loginEv = true)
    (hstore : ∀ c, p (.storeEv c) = true)
    (herr : ∀ m, p (.errorEv m) = true)
    (hwl : ∀ c, p (.withLoginEv c) = true)
    (hsh : p .siteHomepageEv = true)
    (hpub : ∀ t pl, p (.publishEv t pl) = true)
    (hscen : ∀ sid, p (.scenInfoEv sid) = true)
    (hdev : ∀ sid pt, p (.deviceParamEv sid pt) = true) :
    ((fetchAndPublish env pre cache).trace).all p = true := by
  unfold fetchAndPublish
  cases cache with
  | none =>
      have hl := loginTail_all p env pre none hlogin hstore herr hwl hsh hpub hscen hdev hlog
      simp_all [List.all_append, hlog, hretr]
  | some cred =>
      by_cases hv : isLoginValid cred env.now = true
      · have ht := publishTail_all p env pre cred hwl hsh hpub hscen hdev hlog
        simp_all [List.all_append, hlog, hretr]
      · have hl := loginTail_all p env pre (some cred) hlogin hstore herr hwl hsh hpub hscen hdev hlog
        simp_all [List.all_append, hlog, hretr]

/-- The logged-in phase never calls `api.login()`. -/
theorem countLogin_publishTail (env : Env) (pre : String)
    (cred : LoginResultResponse) :
    countLogin (publishTail env pre cred).1 = 0 := by
  have h := publishTail_all (fun e => !(isLoginEv e)) env pre cred
    (by intro c; rfl) rfl (by intro t pl; rfl) (by intro sid; rfl)
    (by intro sid pt; rfl) (by intro m; rfl)
  unfold countLogin
  rw [List.countP_eq_zero]
  intro a ha
  have := List.all_eq_true.mp h a ha
  simp_all

/-- The logged-in phase never calls `persistence.store`. -/
theorem storesOf_publishTail (env : Env) (pre : String)
    (cred : LoginResultResponse) :
    storesOf (publishTail env pre cred).1 = [] := by
  have h := publishTail_all
    (fun e => match e with | Event.storeEv _ => false | _ => true) env pre cred
    (by intro c; rfl) rfl (by intro t pl; rfl) (by intro sid; rfl)
    (by intro sid pt; rfl) (by intro m; rfl)
  unfold storesOf
  rw [List.filterMap_eq_nil_iff]
  intro a ha
  have := List.all_eq_true.mp h a ha
  cases a <;> simp_all

/-- The login branch calls `api.login()` exactly once, and when the login
response carries a credential it stores exactly that credential. -/
theorem loginTail_calls (env : Env) (pre : String)
    (cache : Option LoginResultResponse) :
    countLogin (loginTail env pre cache).2.1 = 1 ∧
    (∀ resp newCred, env.loginRes = .ok resp → resp.data = some newCred →
        storesOf (loginTail env pre cache).2.1 = [newCred]) := by
  unfold loginTail
  rcases hl : env.loginRes with e | resp
  · constructor
    · simp [countLogin, isLoginEv]
    · intro resp newCred h _
      simp at h
  · simp only
    rcases hd : resp.data with _ | cred
    · constructor
      · simp [hd, countLogin, isLoginEv]
      · intro resp2 newCred h2 hd2
        injection h2 with h3
        subst h3
        rw [hd] at hd2
        simp at hd2
    · simp only [hd]
      rcases hs : env.storeRes with e | u
      · constructor
        · simp [countLogin, isLoginEv]
        · intro resp2 newCred h2 hd2
          injection h2 with h3
          subst h3
          rw [hd] at hd2
          injection hd2 with h4
          subst h4
          simp [storesOf]
      · constructor
        · have := countLogin_publishTail env pre cred
          simp_all [countLogin, List.countP_cons, List.countP_append, isLoginEv]
        · intro resp2 newCred h2 hd2
          injection h2 with h3
          subst h3
          rw [hd] at hd2
          injection hd2 with h4
          subst h4
          have := storesOf_publishTail env pre cred
          simp_all [storesOf, List.filterMap_cons, List.filterMap_append]

/-- A cycle that finds a time-valid cached credential never calls
`api.login()`. -/
theorem countLogin_valid_cache (env : Env) (pre : String)
    (cred : LoginResultResponse)
    (hval : isLoginValid cred env.now = true) :
    countLogin (fetchAndPublish env pre (some cred)).trace = 0 := by
  have ht := countLogin_publishTail env pre cred
  unfold fetchAndPublish
  simp_all [hval, countLogin, List.countP_append, List.countP_cons, isLoginEv]

/-! ### C6 -/

/-- C6: `isLoginValid` is a pure predicate on the credential's expiry
instant (`token_expires_at` seconds scaled to milliseconds) and the given
current time: it returns true when the expiry is strictly after `now`, and
false when the expiry is at or before `now`. -/
theorem isLoginValid_iff_expiry_future (c : LoginResultResponse) (now : Int) :
    (expiryInstantMs c > now → isLoginValid c now = true) ∧
    (expiryInstantMs c ≤ now → isLoginValid c now = false) := by
  unfold isLoginValid expiryInstantMs
  constructor <;> intro h <;> simp <;> omega

/-- Witness for C6 at a concrete credential and two concrete instants. -/
theorem isLoginValid_iff_expiry_future_witness :
    (expiryInstantMs ⟨10, "tok"⟩ > 5000 ∧ isLoginValid ⟨10, "tok"⟩ 5000 = true) ∧
    (expiryInstantMs ⟨10, "tok"⟩ ≤ 20000 ∧ isLoginValid ⟨10, "tok"⟩ 20000 = false) :=
  ⟨⟨by decide, (isLoginValid_iff_expiry_future ⟨10, "tok"⟩ 5000).1 (by decide)⟩,
   ⟨by decide, (isLoginValid_iff_expiry_future ⟨10, "tok"⟩ 20000).2 (by decide)⟩⟩

/-! ### C4 -/

/-- C4 counterexample: with configured interval 60000ms (`pollInterval`
60s) and cycle duration 65000ms, the computed sleep is -5000ms — not 0 as
claimed; `src/app.ts` line 100 has no clamping, and the negative value is
handed to the timed wait `sleep`. -/
theorem sleep_not_clamped_counterexample :
    sleepIntervalOf 60 65000 = -5000 ∧
    ¬ sleepIntervalOf 60 65000 = 0 ∧
    Event.sleepEv (-5000) ∈ loopTraceOf okEnv "anker" 60 65000 none := by
  decide

/-- C4 amended: the computed sleep duration is exactly
`pollInterval * 1000 - elapsed` with no clamping — it is negative whenever
the cycle overran the interval — and exactly this value, negative or not,
is passed to the timed wait. (The first example of the claim holds:
interval 60000ms and cycle 5000ms give sleep 55000ms.) -/
theorem sleepInterval_unclamped (pollInterval elapsed : Int) (env : Env)
    (pre : String) (cache : Option LoginResultResponse) :
    sleepIntervalOf pollInterval elapsed = pollInterval * 1000 - elapsed ∧
    (elapsed > pollInterval * 1000 → sleepIntervalOf pollInterval elapsed < 0) ∧
    Event.sleepEv (sleepIntervalOf pollInterval elapsed) ∈
      loopTraceOf env pre pollInterval elapsed cache := by
  refine ⟨rfl, ?_, ?_⟩
  · intro h
    unfold sleepIntervalOf
    omega
  · unfold loopTraceOf loopIter
    simp

/-- Witness for C4's amended statement: overrunning cycle (65000ms against
a 60s interval) yields a negative sleep that reaches the wait. -/
theorem sleepInterval_unclamped_witness :
    sleepIntervalOf 60 65000 = 60 * 1000 - 65000 ∧
    sleepIntervalOf 60 65000 < 0 ∧
    Event.sleepEv (sleepIntervalOf 60 65000) ∈
      loopTraceOf okEnv "anker" 60 65000 none :=
  ⟨(sleepInterval_unclamped 60 65000 okEnv "anker" none).1,
   (sleepInterval_unclamped 60 65000 okEnv "anker" none).2.1 (by decide),
   (sleepInterval_unclamped 60 65000 okEnv "anker" none).2.2⟩

/-! ### C8 -/

/-- C8: the site-overview retrieval (`SolixE1600.getSitehomepage`) is
attempted once; when it yields no usable result it is retried exactly once
after a fixed 1000ms delay; only when the retry also yields nothing does
the operation fail. -/
theorem getSitehomepage_single_retry (first second : Option SiteHomepageResponse) :
    (∀ s, first = some s →
        getSitehomepage first second = ([.homepageCallEv], .ok s.data)) ∧
    (first = none → ∀ s, second = some s →
        getSitehomepage first second =
          ([.homepageCallEv, .waitEv 1000, .homepageCallEv], .ok s.data)) ∧
    (first = none → second = none →
        getSitehomepage first second =
          ([.homepageCallEv, .waitEv 1000, .homepageCallEv],
           .error "Unable to retrieve Sitehomepage")) := by
  refine ⟨?_, ?_, ?_⟩ <;> intros <;> subst_vars <;> rfl

/-- Witness for C8: first call unusable, retry usable. -/
theorem getSitehomepage_single_retry_witness :
    (none : Option SiteHomepageResponse) = none ∧
    getSitehomepage none (some ⟨none⟩) =
      ([.homepageCallEv, .waitEv 1000, .homepageCallEv], .ok none) :=
  ⟨rfl, (getSitehomepage_single_retry none (some ⟨none⟩)).2.1 rfl ⟨none⟩ rfl⟩

/-! ### Cycle-shape lemmas -/

/-- An empty cache sends the cycle through the login branch. -/
theorem fetchAndPublish_none_eq (env : Env) (pre : String) :
    fetchAndPublish env pre none =
      ⟨(loginTail env pre none).1,
       [.logEv "Fetching data", .retrieveEv none] ++ (loginTail env pre none).2.1,
       (loginTail env pre none).2.2⟩ := rfl

/-- An expired cached credential sends the cycle through the login
branch. -/
theorem fetchAndPublish_expired_eq (env : Env) (pre : String)
    (cred : LoginResultResponse) (hv : isLoginValid cred env.now = false) :
    fetchAndPublish env pre (some cred) =
      ⟨(loginTail env pre (some cred)).1,
       [.logEv "Fetching data", .retrieveEv (some cred)] ++
         (loginTail env pre (some cred)).2.1,
       (loginTail env pre (some cred)).2.2⟩ := by
  simp [fetchAndPublish, hv]

/-- A valid cached credential sends the cycle straight to the logged-in
phase, leaving the cache untouched. -/
theorem fetchAndPublish_valid_eq (env : Env) (pre : String)
    (cred : LoginResultResponse) (hv : isLoginValid cred env.now = true) :
    fetchAndPublish env pre (some cred) =
      ⟨some cred,
       [.logEv "Fetching data", .retrieveEv (some cred),
        .logEv "Using cached auth data"] ++ (publishTail env pre cred).1,
       (publishTail env pre cred).2⟩ := by
  simp [fetchAndPublish, hv]

/-! ### C1 -/

/-- C1 counterexample: with a time-valid cached credential and session
establishment (`api.withLogin`) throwing, the cycle fails but the persisted
cache still holds the very same credential, and the next cycle performs no
`login()` call — nothing in `src/app.ts` ever clears the persisted cache. -/
theorem session_failure_keeps_cache_counterexample :
    isErrorResult (fetchAndPublish badSessionEnv "anker" (some cachedCred)) = true ∧
    (fetchAndPublish badSessionEnv "anker" (some cachedCred)).cache = some cachedCred ∧
    countLogin (fetchAndPublish badSessionEnv "anker"
        (fetchAndPublish badSessionEnv "anker" (some cachedCred)).cache).trace = 0 := by
  decide

/-- C1 amended: when session establishment fails, the cycle aborts with the
exception (later caught by the scheduler), the persisted cache is left
unchanged — it is never cleared — and any later cycle that still finds this
credential time-valid reuses it without calling `login()`. -/
theorem session_failure_keeps_cache (env : Env) (pre : String)
    (cred : LoginResultResponse) (e : String)
    (hval : isLoginValid cred env.now = true)
    (hfail : env.withLoginRes = .error e) :
    (fetchAndPublish env pre (some cred)).cache = some cred ∧
    (fetchAndPublish env pre (some cred)).result = .error e ∧
    (∀ env2 pre2, isLoginValid cred env2.now = true →
        countLogin (fetchAndPublish env2 pre2 (some cred)).trace = 0) := by
  refine ⟨?_, ?_, ?_⟩
  · rw [fetchAndPublish_valid_eq env pre cred hval]
  · rw [fetchAndPublish_valid_eq env pre cred hval]
    simp [publishTail, hfail]
  · intro env2 pre2 hv2
    exact countLogin_valid_cache env2 pre2 cred hv2

/-- Witness for C1's amended statement at `badSessionEnv`. -/
theorem session_failure_keeps_cache_witness :
    (fetchAndPublish badSessionEnv "anker" (some cachedCred)).cache = some cachedCred ∧
    (fetchAndPublish badSessionEnv "anker" (some cachedCred)).result = .error "Login failed" ∧
    countLogin (fetchAndPublish okEnv "mqtt" (some cachedCred)).trace = 0 :=
  ⟨(session_failure_keeps_cache badSessionEnv "anker" cachedCred "Login failed"
      (by decide) rfl).1,
   (session_failure_keeps_cache badSessionEnv "anker" cachedCred "Login failed"
      (by decide) rfl).2.1,
   (session_failure_keeps_cache badSessionEnv "anker" cachedCred "Login failed"
      (by decide) rfl).2.2 okEnv "mqtt" (by decide)⟩

/-! ### C2 -/

/-- C2: a cycle that finds a usable cached credential never calls
`login()`; a cycle that finds no credential or an expired one calls
`login()` exactly once and, when the login succeeds (its response carries a
credential), calls `store()` exactly once with that new credential. -/
theorem cycle_login_store (env : Env) (pre : String)
    (cache : Option LoginResultResponse) :
    (∀ cred, cache = some cred → isLoginValid cred env.now = true →
        countLogin (fetchAndPublish env pre cache).trace = 0) ∧
    ((cache = none ∨ ∃ cred, cache = some cred ∧ isLoginValid cred env.now = false) →
        countLogin (fetchAndPublish env pre cache).trace = 1 ∧
        ∀ resp newCred, env.loginRes = .ok resp → resp.data = some newCred →
          storesOf (fetchAndPublish env pre cache).trace = [newCred]) := by
  constructor
  · intro cred hc hv
    subst hc
    exact countLogin_valid_cache env pre cred hv
  · intro hcase
    have hcl := (loginTail_calls env pre cache).1
    have hst := (loginTail_calls env pre cache).2
    have heq : fetchAndPublish env pre cache =
        ⟨(loginTail env pre cache).1,
         [.logEv "Fetching data", .retrieveEv cache] ++ (loginTail env pre cache).2.1,
         (loginTail env pre cache).2.2⟩ := by
      rcases hcase with hc | ⟨cred, hc, hv⟩
      · subst hc
        exact fetchAndPublish_none_eq env pre
      · subst hc
        exact fetchAndPublish_expired_eq env pre cred hv
    rw [heq]
    constructor
    · simpa [countLogin, List.countP_append, List.countP_cons, isLoginEv]
        using hcl
    · intro resp newCred h1 h2
      have := hst resp newCred h1 h2
      simpa [storesOf, List.filterMap_append, List.filterMap_cons]
        using this

/-- Witness for C2: cached-credential cycle makes no login call; empty
cache makes one login call and one store of the fresh credential. -/
theorem cycle_login_store_witness :
    countLogin (fetchAndPublish okEnv "anker" (some cachedCred)).trace = 0 ∧
    countLogin (fetchAndPublish okEnv "anker" none).trace = 1 ∧
    storesOf (fetchAndPublish okEnv "anker" none).trace = [⟨10, "fresh-token"⟩] :=
  ⟨(cycle_login_store okEnv "anker" (some cachedCred)).1 cachedCred rfl (by decide),
   ((cycle_login_store okEnv "anker" none).2 (Or.inl rfl)).1,
   ((cycle_login_store okEnv "anker" none).2 (Or.inl rfl)).2
     ⟨0, "success", some ⟨10, "fresh-token"⟩⟩ ⟨10, "fresh-token"⟩ rfl rfl⟩

/-! ### C3 -/

/-- C3 counterexample: two sites where the first site's scenario-info call
throws — the same site's schedule operation and the whole second site are
never attempted, and only the homepage topic is published: the per-site
calls are not individually fenced in `src/app.ts`. -/
theorem per_site_failure_aborts_counterexample :
    isErrorResult (fetchAndPublish scenFailEnv "anker" (some cachedCred)) = true ∧
    Event.deviceParamEv "s1" ParamType.LoadConfiguration ∉
      (fetchAndPublish scenFailEnv "anker" (some cachedCred)).trace ∧
    Event.scenInfoEv "s2" ∉ (fetchAndPublish scenFailEnv "anker" (some cachedCred)).trace ∧
    publishedTopics (fetchAndPublish scenFailEnv "anker" (some cachedCred)).trace =
      ["anker/site_homepage"] := by
  decide

/-- The concatenated per-site traces of a list of sites, used to describe
the events a partially completed site loop has emitted. -/
def sitesEvents (env : Env) (pre : String) : List Site → List Event
  | [] => []
  | s :: rest => (processSite env pre s).1 ++ sitesEvents env pre rest

/-- `okEnv` with two sites where the second site's schedule publish
throws. -/
def schedPubFailEnv : Env :=
  { okEnv with
    siteHomepageRes := .ok ⟨some ⟨[⟨"s1", "A"⟩, ⟨"s2", "B"⟩]⟩⟩,
    publishRes := fun t =>
      if t = "anker/site/B/schedule" then .error "pub-failure" else .ok () }

/-- After a prefix of fully successful sites, a site whose body throws
ends the loop with exactly the prefix events plus the failing site's
partial events: nothing of any later site is attempted. -/
theorem processSites_fail_after_ok (env : Env) (pre : String)
    (done : List Site) (s : Site) (rest : List Site) (sevs : List Event)
    (e : String)
    (hdone : ∀ s2 ∈ done, (processSite env pre s2).2 = .ok ())
    (hfail : processSite env pre s = (sevs, .error e)) :
    processSites env pre (done ++ s :: rest) =
      (sitesEvents env pre done ++ sevs, .error e) := by
  induction done with
  | nil => simp [sitesEvents, processSites, hfail]
  | cons s2 done2 ih =>
      have h2 := hdone s2 (by simp)
      rcases hp2 : processSite env pre s2 with ⟨evs2, r2⟩
      rw [hp2] at h2
      dsimp only at h2
      subst h2
      have ih2 := ih fun s3 h3 => hdone s3 (by simp [h3])
      simp [processSites, hp2, sitesEvents, ih2]

/-- C3 amended: within one cycle, a failure in any one of the four
per-site collect-or-publish operations — scenario-info retrieval, its
publish, schedule retrieval, its publish — aborts the remainder of the
site loop at whatever site position it occurs: the site's remaining
operations and every later site are skipped (the loop emits exactly the
successful prefix's events plus the failing site's partial events), the
exception ends the cycle, and the scheduler loop catches and logs it. -/
theorem per_site_failure_aborts (env : Env) (pre : String) (done : List Site)
    (s : Site) (rest : List Site) (e : String) :
    (env.scenInfoRes s.site_id = .error e →
        processSite env pre s = ([.scenInfoEv s.site_id], .error e)) ∧
    (∀ d, env.scenInfoRes s.site_id = .ok d →
        env.publishRes (pre ++ "/site/" ++ s.site_name ++ "/scenInfo") = .error e →
        processSite env pre s =
          ([.scenInfoEv s.site_id,
            .publishEv (pre ++ "/site/" ++ s.site_name ++ "/scenInfo") (.scen d)],
           .error e)) ∧
    (∀ d, env.scenInfoRes s.site_id = .ok d →
        env.publishRes (pre ++ "/site/" ++ s.site_name ++ "/scenInfo") = .ok () →
        env.deviceParamRes s.site_id ParamType.LoadConfiguration = .error e →
        processSite env pre s =
          ([.scenInfoEv s.site_id,
            .publishEv (pre ++ "/site/" ++ s.site_name ++ "/scenInfo") (.scen d),
            .deviceParamEv s.site_id ParamType.LoadConfiguration],
           .error e)) ∧
    (∀ d r, env.scenInfoRes s.site_id = .ok d →
        env.publishRes (pre ++ "/site/" ++ s.site_name ++ "/scenInfo") = .ok () →
        env.deviceParamRes s.site_id ParamType.LoadConfiguration = .ok r →
        env.publishRes (pre ++ "/site/" ++ s.site_name ++ "/schedule") = .error e →
        processSite env pre s =
          ([.scenInfoEv s.site_id,
            .publishEv (pre ++ "/site/" ++ s.site_name ++ "/scenInfo") (.scen d),
            .deviceParamEv s.site_id ParamType.LoadConfiguration,
            .publishEv (pre ++ "/site/" ++ s.site_name ++ "/schedule")
              (.sched r.data.param_data)],
           .error e)) ∧
    (∀ sevs, (∀ s2 ∈ done, (processSite env pre s2).2 = .ok ()) →
        processSite env pre s = (sevs, .error e) →
        processSites env pre (done ++ s :: rest) =
          (sitesEvents env pre done ++ sevs, .error e)) ∧
    (∀ cred sites, isLoginValid cred env.now = true →
        env.withLoginRes = .ok () →
        env.siteHomepageRes = .ok ⟨some ⟨sites⟩⟩ →
        env.publishRes (pre ++ "/site_homepage") = .ok () →
        (processSites env pre sites).2 = .error e →
        (fetchAndPublish env pre (some cred)).result = .error e ∧
        ∀ pollInterval elapsed,
          Event.warnEv "Failed fetching or publishing printer data" ∈
            loopTraceOf env pre pollInterval elapsed (some cred)) := by
  refine ⟨?_, ?_, ?_, ?_, ?_, ?_⟩
  · intro h
    simp [processSite, callStep, h]
  · intro d h1 h2
    simp [processSite, callStep, h1, h2]
  · intro d h1 h2 h3
    simp [processSite, callStep, h1, h2, h3]
  · intro d r h1 h2 h3 h4
    simp [processSite, callStep, h1, h2, h3, h4]
  · intro sevs hdone hfail
    exact processSites_fail_after_ok env pre done s rest sevs e hdone hfail
  · intro cred sites hval hwl hsh hpubh hperr
    have hfp : (fetchAndPublish env pre (some cred)).result = .error e := by
      rw [fetchAndPublish_valid_eq env pre cred hval]
      simp only [publishTail, hwl, hsh, hpubh]
      rcases hr : processSites env pre sites with ⟨evs, r⟩
      rw [hr] at hperr
      dsimp only at hperr
      subst hperr
      simp [hr]
    refine ⟨hfp, ?_⟩
    intro pollInterval elapsed
    unfold loopTraceOf loopIter
    dsimp only
    simp [hfp]

/-- Witness for C3's amended statement: a schedule-publish failure at the
second of two sites (its three earlier operations succeeding, the first
site fully succeeding) ends the site loop right there, fails the cycle,
and is caught and logged by the scheduler. -/
theorem per_site_failure_aborts_witness :
    processSite schedPubFailEnv "anker" ⟨"s2", "B"⟩ =
      ([.scenInfoEv "s2",
        .publishEv "anker/site/B/scenInfo" (.scen (some "scen-payload")),
        .deviceParamEv "s2" ParamType.LoadConfiguration,
        .publishEv "anker/site/B/schedule" (.sched "schedule-payload")],
       .error "pub-failure") ∧
    processSites schedPubFailEnv "anker" [⟨"s1", "A"⟩, ⟨"s2", "B"⟩] =
      (sitesEvents schedPubFailEnv "anker" [⟨"s1", "A"⟩] ++
         [.scenInfoEv "s2",
          .publishEv "anker/site/B/scenInfo" (.scen (some "scen-payload")),
          .deviceParamEv "s2" ParamType.LoadConfiguration,
          .publishEv "anker/site/B/schedule" (.sched "schedule-payload")],
       .error "pub-failure") ∧
    (fetchAndPublish schedPubFailEnv "anker" (some cachedCred)).result =
      .error "pub-failure" ∧
    Event.warnEv "Failed fetching or publishing printer data" ∈
      loopTraceOf schedPubFailEnv "anker" 60 5000 (some cachedCred) := by
  have h := per_site_failure_aborts schedPubFailEnv "anker" [⟨"s1", "A"⟩]
    ⟨"s2", "B"⟩ [] "pub-failure"
  have h4 := h.2.2.2.1 (some "scen-payload") ⟨⟨"schedule-payload"⟩⟩ rfl rfl rfl rfl
  have hdone : ∀ s2 ∈ [(⟨"s1", "A"⟩ : Site)],
      (processSite schedPubFailEnv "anker" s2).2 = .ok () := by
    intro s2 hs2
    simp only [List.mem_singleton] at hs2
    subst hs2
    rfl
  have hb := h.2.2.2.2.1 _ hdone h4
  have hc := h.2.2.2.2.2 cachedCred [⟨"s1", "A"⟩, ⟨"s2", "B"⟩]
    (by decide) rfl rfl rfl rfl
  exact ⟨h4, by simpa using hb, hc.1, hc.2 60 5000⟩

/-! ### Success-path per-site trace -/

/-- Full per-site trace on the success path: scenario-info call and
publish, schedule call and publish, then the five unpublished
`getSiteDeviceParam` calls with param types "3", "2", "1", "6", "6". -/
theorem processSite_ok_eq (env : Env) (pre : String) (s : Site)
    (d : Option String) (f : String → SiteDeviceParamResponse)
    (hscen : env.scenInfoRes s.site_id = .ok d)
    (hdev : ∀ pt, env.deviceParamRes s.site_id pt = .ok (f pt))
    (hpub : ∀ t, env.publishRes t = .ok ()) :
    processSite env pre s =
      ([.scenInfoEv s.site_id,
        .publishEv (pre ++ "/site/" ++ s.site_name ++ "/scenInfo") (.scen d),
        .deviceParamEv s.site_id ParamType.LoadConfiguration,
        .publishEv (pre ++ "/site/" ++ s.site_name ++ "/schedule")
          (.sched (f ParamType.LoadConfiguration).data.param_data),
        .deviceParamEv s.site_id "3", .deviceParamEv s.site_id "2",
        .deviceParamEv s.site_id "1", .deviceParamEv s.site_id "6",
        .deviceParamEv s.site_id "6"],
       .ok ()) := by
  simp [processSite, callStep, hscen, hdev, hpub]

/-- The per-site topic sequence the spec prescribes, in listing order:
scenario info then schedule for each site. -/
def expectedSiteTopics (pre : String) : List Site → List String
  | [] => []
  | s :: rest =>
      (pre ++ "/site/" ++ s.site_name ++ "/scenInfo") ::
      (pre ++ "/site/" ++ s.site_name ++ "/schedule") ::
      expectedSiteTopics pre rest

/-- On the success path the site loop publishes exactly the per-site topic
sequence, in listing order, and completes. -/
theorem processSites_ok_topics (env : Env) (pre : String) (sites : List Site)
    (ds : String → Option String)
    (fdev : String → String → SiteDeviceParamResponse)
    (hscen : ∀ sid, env.scenInfoRes sid = .ok (ds sid))
    (hdev : ∀ sid pt, env.deviceParamRes sid pt = .ok (fdev sid pt))
    (hpub : ∀ t, env.publishRes t = .ok ()) :
    publishedTopics (processSites env pre sites).1 = expectedSiteTopics pre sites ∧
    (processSites env pre sites).2 = .ok () := by
  induction sites with
  | nil => simp [processSites, publishedTopics, publishesOf, expectedSiteTopics]
  | cons s rest ih =>
      have hps := processSite_ok_eq env pre s (ds s.site_id)
        (fun pt => fdev s.site_id pt) (hscen s.site_id)
        (fun pt => hdev s.site_id pt) hpub
      obtain ⟨ih1, ih2⟩ := ih
      constructor
      · simp only [processSites, hps]
        simp only [publishedTopics, publishesOf, List.filterMap_append,
          List.map_append] at ih1 ⊢
        simp [ih1, expectedSiteTopics]
      · simp only [processSites, hps]
        simpa using ih2

/-! ### C5 -/

/-- C5: on a fully successful cycle the publish topics are exactly, in
order: `{prefix}/site_homepage` once, then for each site in listing order
`{prefix}/site/{name}/scenInfo` followed by `{prefix}/site/{name}/schedule`. -/
theorem publish_order (env : Env) (pre : String) (cred : LoginResultResponse)
    (sites : List Site) (ds : String → Option String)
    (fdev : String → String → SiteDeviceParamResponse)
    (hval : isLoginValid cred env.now = true)
    (hwl : env.withLoginRes = .ok ())
    (hsh : env.siteHomepageRes = .ok ⟨some ⟨sites⟩⟩)
    (hscen : ∀ sid, env.scenInfoRes sid = .ok (ds sid))
    (hdev : ∀ sid pt, env.deviceParamRes sid pt = .ok (fdev sid pt))
    (hpub : ∀ t, env.publishRes t = .ok ()) :
    publishedTopics (fetchAndPublish env pre (some cred)).trace =
      (pre ++ "/site_homepage") :: expectedSiteTopics pre sites := by
  rw [fetchAndPublish_valid_eq env pre cred hval]
  have hsites := processSites_ok_topics env pre sites ds fdev hscen hdev hpub
  simp only [publishTail, hwl, hsh, hpub]
  rcases hr : processSites env pre sites with ⟨evs, r⟩
  rw [hr] at hsites
  obtain ⟨h1, h2⟩ := hsites
  simp only at h1 h2
  subst h2
  simp only [publishedTopics, publishesOf, List.filterMap_append,
    List.map_append] at h1 ⊢
  simp [h1]

/-- Witness for C5: prefix `anker` and one site `Home` yield
`anker/site_homepage`, `anker/site/Home/scenInfo`,
`anker/site/Home/schedule`, in that order. -/
theorem publish_order_witness :
    publishedTopics (fetchAndPublish okEnv "anker" (some cachedCred)).trace =
      ["anker/site_homepage", "anker/site/Home/scenInfo",
       "anker/site/Home/schedule"] := by
  have h := publish_order okEnv "anker" cachedCred [⟨"site-1", "Home"⟩]
    (fun _ => some "scen-payload") (fun _ _ => ⟨⟨"schedule-payload"⟩⟩)
    (by decide) rfl rfl (fun _ => rfl) (fun _ _ => rfl) (fun _ => rfl)
  simpa [expectedSiteTopics] using h

/-! ### C9 -/

/-- C9: for every site processed on the success path, besides the two
published items the loop issues five further awaited `getSiteDeviceParam`
calls with param types "3", "2", "1", "6", "6", and none of their results
is published — the publishes of the site are exactly the scenario-info and
schedule payloads. -/
theorem extra_device_param_calls (env : Env) (pre : String) (s : Site)
    (d : Option String) (f : String → SiteDeviceParamResponse)
    (hscen : env.scenInfoRes s.site_id = .ok d)
    (hdev : ∀ pt, env.deviceParamRes s.site_id pt = .ok (f pt))
    (hpub : ∀ t, env.publishRes t = .ok ()) :
    deviceParamCallsOf (processSite env pre s).1 =
      [(s.site_id, ParamType.LoadConfiguration), (s.site_id, "3"),
       (s.site_id, "2"), (s.site_id, "1"), (s.site_id, "6"), (s.site_id, "6")] ∧
    publishesOf (processSite env pre s).1 =
      [(pre ++ "/site/" ++ s.site_name ++ "/scenInfo", .scen d),
       (pre ++ "/site/" ++ s.site_name ++ "/schedule",
        .sched (f ParamType.LoadConfiguration).data.param_data)] ∧
    (processSite env pre s).2 = .ok () := by
  rw [processSite_ok_eq env pre s d f hscen hdev hpub]
  refine ⟨?_, ?_, rfl⟩ <;> simp [deviceParamCallsOf, publishesOf]

/-- Witness for C9 at `okEnv`'s single site. -/
theorem extra_device_param_calls_witness :
    deviceParamCallsOf (processSite okEnv "anker" ⟨"site-1", "Home"⟩).1 =
      [("site-1", ParamType.LoadConfiguration), ("site-1", "3"),
       ("site-1", "2"), ("site-1", "1"), ("site-1", "6"), ("site-1", "6")] ∧
    publishesOf (processSite okEnv "anker" ⟨"site-1", "Home"⟩).1 =
      [("anker/site/Home/scenInfo", .scen (some "scen-payload")),
       ("anker/site/Home/schedule", .sched "schedule-payload")] ∧
    (processSite okEnv "anker" ⟨"site-1", "Home"⟩).2 = .ok () :=
  extra_device_param_calls okEnv "anker" ⟨"site-1", "Home"⟩
    (some "scen-payload") (fun _ => ⟨⟨"schedule-payload"⟩⟩) rfl
    (fun _ => rfl) (fun _ => rfl)

/-! ### C10 -/

/-- C10: when the homepage call succeeds but its response has no `data`
field, the cycle does not abort — it publishes the absent payload to the
site_homepage topic, iterates over no sites, logs "Published." and
completes without error. -/
theorem homepage_without_data (env : Env) (pre : String)
    (cred : LoginResultResponse)
    (hval : isLoginValid cred env.now = true)
    (hwl : env.withLoginRes = .ok ())
    (hsh : env.siteHomepageRes = .ok ⟨none⟩)
    (hpub : env.publishRes (pre ++ "/site_homepage") = .ok ()) :
    (fetchAndPublish env pre (some cred)).result = .ok () ∧
    publishesOf (fetchAndPublish env pre (some cred)).trace =
      [(pre ++ "/site_homepage", .homepage none)] ∧
    (∀ sid, Event.scenInfoEv sid ∉ (fetchAndPublish env pre (some cred)).trace) ∧
    Event.logEv "Published." ∈ (fetchAndPublish env pre (some cred)).trace := by
  rw [fetchAndPublish_valid_eq env pre cred hval]
  simp [publishTail, hwl, hsh, hpub, processSites, publishesOf]

/-- Witness for C10 at `noDataEnv`. -/
theorem homepage_without_data_witness :
    (fetchAndPublish noDataEnv "anker" (some cachedCred)).result = .ok () ∧
    publishesOf (fetchAndPublish noDataEnv "anker" (some cachedCred)).trace =
      [("anker/site_homepage", .homepage none)] ∧
    (∀ sid, Event.scenInfoEv sid ∉
        (fetchAndPublish noDataEnv "anker" (some cachedCred)).trace) ∧
    Event.logEv "Published." ∈
      (fetchAndPublish noDataEnv "anker" (some cachedCred)).trace :=
  homepage_without_data noDataEnv "anker" cachedCred (by decide) rfl rfl rfl

/-! ### C7 -/

/-- C7: every exception a cycle throws is caught at the scheduler loop —
an iteration always yields a next state (never a crash), and the warning
log appears in the iteration's trace exactly when the cycle threw. -/
theorem loop_contains_failures (env : Env) (pre : String)
    (pollInterval elapsed : Int) (cache : Option LoginResultResponse) :
    (∃ st, loopIter env pre pollInterval elapsed cache = .ok st) ∧
    ∀ st, loopIter env pre pollInterval elapsed cache = .ok st →
      (isErrorResult (fetchAndPublish env pre cache) = true ↔
        Event.warnEv "Failed fetching or publishing printer data" ∈ st.trace) := by
  constructor
  · exact ⟨_, rfl⟩
  · intro st hst
    have hall := fetchAndPublish_all
      (fun e => match e with | Event.warnEv _ => false | _ => true) env pre cache
      (fun m => rfl) (fun r => rfl) rfl (fun c => rfl) (fun m => rfl)
      (fun c => rfl) rfl (fun t pl => rfl) (fun sid => rfl) (fun sid pt => rfl)
    have hnw : Event.warnEv "Failed fetching or publishing printer data" ∉
        (fetchAndPublish env pre cache).trace := by
      intro hmem
      have := List.all_eq_true.mp hall _ hmem
      simp at this
    unfold loopIter at hst
    dsimp only at hst
    rcases hres : (fetchAndPublish env pre cache).result with e | u
    · rw [hres] at hst
      injection hst with h
      subst h
      simp only [isErrorResult, hres]
      simp
    · rw [hres] at hst
      injection hst with h
      subst h
      simp only [isErrorResult, hres]
      simp only [List.mem_append]
      constructor
      · intro hfalse
        cases hfalse
      · intro hmem
        rcases hmem with hmem | hmem
        · exact absurd hmem hnw
        · simp at hmem

/-- Witness for C7: a failing cycle (session establishment throws) still
yields a next loop state carrying the warning log. -/
theorem loop_contains_failures_witness :
    Event.warnEv "Failed fetching or publishing printer data" ∈
      loopTraceOf badSessionEnv "anker" 60 5000 (some cachedCred) := by
  have h2 := (loop_contains_failures badSessionEnv "anker" 60 5000
    (some cachedCred)).2
  rcases hli : loopIter badSessionEnv "anker" 60 5000 (some cachedCred) with e | st
  · simp [loopIter] at hli
  · have hw := (h2 st hli).mp (by decide)
    simpa [loopTraceOf, hli] using hw

end Solix
